import Mathlib

/-!
Shallow embedding of the browser-tool catalog in `src/tools/browser_tools.py`
(class `BrowserTools`).  The Selenium driver held in `self.driver` is modelled
as explicit state (`Driver`); driver/Python exceptions are the inductive
`DriverExc`; each tool method becomes a Lean function returning
`Except DriverExc _`, where `.error e` means the Python exception `e` escaped
the tool to the caller and `.ok r` means the tool returned `r` normally.
Polling waits (`WebDriverWait(...).until(...)`) are modelled as a fuel-bounded
loop over a time-indexed view of the page, with one condition check per poll
step and at least one check even when the timeout is zero, exactly as
selenium's `until` loop behaves.
-/

namespace BrowserTools

/-- Exceptions that can cross a tool boundary.  `noSuchElement` is selenium's
NoSuchElementException, `timeoutExc` is TimeoutException, `elementNotInteractable`
is ElementNotInteractableException, `noSuchWindow` is NoSuchWindowException
(raised by every driver call when the session has no active window),
`indexError` is Python's IndexError (raised by `switch_tab`), and
`webDriverError` is any other WebDriverException carrying a message. -/
inductive DriverExc where
  | noSuchElement
  | timeoutExc
  | elementNotInteractable
  | noSuchWindow
  | indexError (msg : String)
  | webDriverError (msg : String)
deriving DecidableEq, Repr

/-- The `str(e)` rendering used by the generic `except Exception as e` handlers. -/
def DriverExc.str : DriverExc → String
  | .noSuchElement => "no such element"
  | .timeoutExc => "timeout"
  | .elementNotInteractable => "element not interactable"
  | .noSuchWindow => "no such window"
  | .indexError m => m
  | .webDriverError m => m

/-- A WebElement as observed through the driver calls the tools make.
`ref` is the element's identity (what WebElement equality compares);
`attrId`, `attrClass`, `attrType` are `get_attribute("id"/"class"/"type")`
with `""` standing for an absent attribute (both `None` and `""` are falsy in
the Python code, so the distinction never matters there); `displayed` and
`enabled` are `is_displayed()` / `is_enabled()`; `text` is the `text`
property.  `clickFault` / `sendKeysFault` model an exception raised by
`click()` respectively `clear()`/`send_keys(..)` on this element, and
`inspectFault` one raised while reading the element's properties
(e.g. a StaleElementReferenceException). -/
structure Element where
  ref : Nat
  attrId : String
  attrClass : String
  tagName : String
  attrType : String
  displayed : Bool
  enabled : Bool
  text : String
  clickFault : Option DriverExc
  sendKeysFault : Option DriverExc
  inspectFault : Option DriverExc
deriving DecidableEq, Repr

/-- One hit of the XPath text search in `find_elements_by_text`, together with
the response the driver gives to `parent.find_elements(By.TAG_NAME, tag)`
inside `_generate_selector` for this hit (the same-tag descendants of the
hit's parent, in document order). -/
structure TextHit where
  el : Element
  parentTagElems : List Element
deriving DecidableEq, Repr

/-- The state behind `self.driver`.  `handles` is `window_handles`, `current`
the active window (none once the last tab is closed).  `pages w t sel` is the
outcome of `find_element(By.CSS_SELECTOR, sel)` on window `w` at poll step
`t` (the live DOM may change between poll steps of a wait).  `textAt w txt b`
is the outcome of the XPath text search of `find_elements_by_text` on window
`w` (`b` = partial matching).  `navFault url` is the exception `get(url)`
raises, if any. -/
structure Driver where
  handles : List String
  current : Option String
  pages : String → Nat → String → Except DriverExc Element
  textAt : String → String → Bool → Except DriverExc (List TextHit)
  navFault : String → Option DriverExc

/-- driver.find_element(By.CSS_SELECTOR, sel) at poll step t: raises
NoSuchWindowException when the session has no active window, otherwise
resolves in the active tab's live DOM. -/
def driverFind (d : Driver) (t : Nat) (sel : String) : Except DriverExc Element :=
  match d.current with
  | none => .error .noSuchWindow
  | some w => d.pages w t sel

/-- driver.find_elements(By.XPATH, text query): raises NoSuchWindowException
with no active window, otherwise answers from the active tab. -/
def driverFindByText (d : Driver) (text : String) (substrMatch : Bool) :
    Except DriverExc (List TextHit) :=
  match d.current with
  | none => .error .noSuchWindow
  | some w => d.textAt w text substrMatch

/- Result message strings, verbatim from the Python f-strings. -/

def clickedMsg (sel : String) : String := s!"Clicked element with selector: {sel}"

def enteredMsg (text sel : String) : String :=
  s!"Entered text '{text}' into field with selector: {sel}"

def appearedMsg (sel : String) (timeout : Nat) : String :=
  s!"Element with selector '{sel}' appeared within {timeout} s"

def pressedMsg (keyUpper sel : String) : String :=
  s!"Pressed {keyUpper} on element with selector: {sel}"

def unsupportedKeyMsg (key : String) : String :=
  s!"Unsupported key '{key}'. Supported keys: ENTER, TAB, ESC, ESCAPE, SPACE, BACKSPACE"

def notFoundMsg (sel : String) : String := s!"Element '{sel}' not found on the page"

def notClickableMsg (sel : String) (timeout : Nat) : String :=
  s!"Element '{sel}' not clickable within {timeout} seconds"

def notInteractableMsg (sel : String) : String :=
  s!"Element '{sel}' is not interactable (may be hidden or disabled)"

def clickErrMsg (sel m : String) : String := s!"Error clicking element '{sel}': {m}"

def clickSuccessMsg (sel : String) : String :=
  s!"Successfully clicked element with selector: {sel}"

def notFoundWithinMsg (sel : String) (timeout : Nat) : String :=
  s!"Element '{sel}' not found within {timeout} seconds"

def disabledMsg (sel : String) : String :=
  s!"Element '{sel}' is disabled and cannot receive input"

def inputErrMsg (sel m : String) : String :=
  s!"Error entering text into element '{sel}': {m}"

def inputSuccessMsg (text sel : String) : String :=
  s!"Successfully entered text '{text}' into element with selector: {sel}"

def outOfRangeMsg (index : Int) (n : Nat) : String :=
  s!"Tab index {index} out of range. {n} tab(s) open."

def switchedMsg (index : Int) : String := s!"Switched to tab {index}"

def foundAndMsg (sel vis : String) : String := s!"Element '{sel}' found and is {vis}"

def searchErrMsg (text m : String) : String := s!"Error searching for text '{text}': {m}"

def foundCountMsg (n : Nat) (text : String) : String :=
  s!"Found {n} elements containing '{text}'"

/-- click_element (lines 55-59): find_element then click, no try/except. -/
def click_element (d : Driver) (sel : String) : Except DriverExc String :=
  match driverFind d 0 sel with
  | .error e => .error e
  | .ok el =>
    match el.clickFault with
    | some e => .error e
    | none => .ok (clickedMsg sel)

/-- input_text (lines 61-66): find_element, clear, send_keys, no try/except.
`sendKeysFault` covers a fault from either `clear()` or `send_keys(text)`. -/
def input_text (d : Driver) (sel text : String) : Except DriverExc String :=
  match driverFind d 0 sel with
  | .error e => .error e
  | .ok el =>
    match el.sendKeysFault with
    | some e => .error e
    | none => .ok (enteredMsg text sel)

/-- The key_map keys of press_key (lines 79-86), in insertion order. -/
def keyVocab : List String := ["ENTER", "TAB", "ESC", "ESCAPE", "SPACE", "BACKSPACE"]

/-- Python's upper-casing of a string, for the ASCII key names the code
compares against: upper-case character by character. -/
def pyUpper (s : String) : String := String.mk (s.data.map Char.toUpper)

/-- press_key (lines 77-91): `key.upper()` is looked up in key_map before any
driver call; an unrecognized key returns the "Unsupported key" string (no
exception), a recognized key resolves the selector (NoSuchElementException
escapes) and sends the key. -/
def press_key (d : Driver) (sel key : String) : Except DriverExc String :=
  if pyUpper key ∈ keyVocab then
    match driverFind d 0 sel with
    | .error e => .error e
    | .ok el =>
      match el.sendKeysFault with
      | some e => .error e
      | none => .ok (pressedMsg (pyUpper key) sel)
  else
    .ok (unsupportedKeyMsg key)

/-- One check of selenium's `WebDriverWait.until` loop: the condition value is
either a truthy value (element found, wait is over), falsy / an ignored
NoSuchElementException (keep polling), or another exception (propagates
immediately out of `until`).  `some r` means the wait ends now with outcome
`r`, `none` means keep polling. -/
def waitStep : Except DriverExc (Option Element) → Option (Except DriverExc Element)
  | .ok (some el) => some (.ok el)
  | .ok none => none
  | .error .noSuchElement => none
  | .error e => some (.error e)

/-- WebDriverWait(driver, timeout).until(cond): checks the condition at poll
steps t, t+1, ... spending one unit of fuel per re-poll; when the fuel
(timeout) is exhausted and the condition still pends, raises
TimeoutException.  The condition is checked at least once even with a zero
timeout, as in selenium's loop. -/
def waitLoop (cond : Nat → Except DriverExc (Option Element)) :
    Nat → Nat → Except DriverExc Element
  | t, 0 => (waitStep (cond t)).getD (.error .timeoutExc)
  | t, f + 1 =>
    match waitStep (cond t) with
    | some r => r
    | none => waitLoop cond (t + 1) f

/-- EC.presence_of_element_located: find_element's result as a wait condition
(found element is truthy; NoSuchElementException is ignored and polled). -/
def presenceCond (d : Driver) (sel : String) (t : Nat) :
    Except DriverExc (Option Element) :=
  match driverFind d t sel with
  | .ok el => .ok (some el)
  | .error e => .error e

/-- EC.element_to_be_clickable: the element must be found, displayed and
enabled; a found-but-not-clickable element is falsy (keep polling). -/
def clickableCond (d : Driver) (sel : String) (t : Nat) :
    Except DriverExc (Option Element) :=
  match driverFind d t sel with
  | .ok el => if el.displayed && el.enabled then .ok (some el) else .ok none
  | .error e => .error e

/-- wait_for_element (lines 93-98): WebDriverWait(...).until(presence), no
try/except, then the success message.  A TimeoutException (or any driver
fault) escapes to the caller. -/
def wait_for_element (d : Driver) (sel : String) (timeout : Nat) :
    Except DriverExc String :=
  match waitLoop (presenceCond d sel) 0 timeout with
  | .ok _ => .ok (appearedMsg sel timeout)
  | .error e => .error e

/-- The except-ladder of safe_click_element (lines 255-262): TimeoutException,
ElementNotInteractableException, NoSuchElementException, then the generic
`except Exception as e` (the exception classes are disjoint, so the ladder is
a total map from the exception to a message). -/
def clickExcMsg (sel : String) (timeout : Nat) (e : DriverExc) : String :=
  match e with
  | .timeoutExc => notClickableMsg sel timeout
  | .elementNotInteractable => notInteractableMsg sel
  | .noSuchElement => notFoundMsg sel
  | e => clickErrMsg sel e.str

/-- safe_click_element (lines 243-262): wait for element_to_be_clickable, then
click; every exception from the wait or the click is translated by the
except-ladder into a returned message, so the tool never raises. -/
def safe_click_element (d : Driver) (sel : String) (timeout : Nat) :
    Except DriverExc String :=
  match waitLoop (clickableCond d sel) 0 timeout with
  | .error e => .ok (clickExcMsg sel timeout e)
  | .ok el =>
    match el.clickFault with
    | some e => .ok (clickExcMsg sel timeout e)
    | none => .ok (clickSuccessMsg sel)

/-- The except-ladder of safe_input_text (lines 279-286). -/
def inputExcMsg (sel : String) (timeout : Nat) (e : DriverExc) : String :=
  match e with
  | .timeoutExc => notFoundWithinMsg sel timeout
  | .elementNotInteractable => notInteractableMsg sel
  | .noSuchElement => notFoundMsg sel
  | e => inputErrMsg sel e.str

/-- safe_input_text (lines 264-286): wait only for
presence_of_element_located, then a single `is_enabled()` check (a disabled
element is rejected immediately, with no further polling), then clear and
send_keys; every exception is translated by the except-ladder, so the tool
never raises. -/
def safe_input_text (d : Driver) (sel text : String) (timeout : Nat) :
    Except DriverExc String :=
  match waitLoop (presenceCond d sel) 0 timeout with
  | .error e => .ok (inputExcMsg sel timeout e)
  | .ok el =>
    if el.enabled = false then
      .ok (disabledMsg sel)
    else
      match el.sendKeysFault with
      | some e => .ok (inputExcMsg sel timeout e)
      | none => .ok (inputSuccessMsg text sel)

/-- The record check_element_exists serializes with json.dumps: the found
shape has the tag_name/type/text keys, the not-found shape omits them
(modelled by the Option fields being none). -/
structure CheckExistsResult where
  exists_ : Bool
  visible : Bool
  enabled : Bool
  tagName? : Option String
  type? : Option String
  text? : Option String
  message : String
deriving DecidableEq, Repr

/-- The try-block of check_element_exists (lines 146-162): find_element, read
the element's properties, build the found record. -/
def checkBody (d : Driver) (sel : String) : Except DriverExc CheckExistsResult :=
  match driverFind d 0 sel with
  | .error e => .error e
  | .ok el =>
    match el.inspectFault with
    | some e => .error e
    | none =>
      let vis := if el.displayed then "visible" else "hidden"
      let ty := if el.attrType = "" then "unknown" else el.attrType
      .ok { exists_ := true, visible := el.displayed, enabled := el.enabled,
            tagName? := some el.tagName, type? := some ty,
            text? := some (el.text.take 100),
            message := foundAndMsg sel vis }

/-- check_element_exists (lines 141-170): only NoSuchElementException is
caught (yielding the exists=false record); every other exception raised in
the try-block propagates to the caller. -/
def check_element_exists (d : Driver) (sel : String) :
    Except DriverExc CheckExistsResult :=
  match checkBody d sel with
  | .ok r => .ok r
  | .error .noSuchElement =>
    .ok { exists_ := false, visible := false, enabled := false,
          tagName? := none, type? := none, text? := none,
          message := notFoundMsg sel }
  | .error e => .error e

/-- Splitting a character list on whitespace runs, dropping empty pieces;
`acc` holds the current word reversed. -/
def splitWs : List Char → List Char → List String
  | [], acc => if acc = [] then [] else [String.mk acc.reverse]
  | c :: cs, acc =>
    if c.isWhitespace then
      (if acc = [] then [] else [String.mk acc.reverse]) ++ splitWs cs []
    else splitWs cs (c :: acc)

/-- Python's `str.split()` with no argument: split on whitespace runs,
dropping empty pieces. -/
def pySplit (s : String) : List String := splitWs s.data []

/-- _generate_selector (lines 423-446).  `parentTagElems` is the driver's
response to `parent.find_elements(By.TAG_NAME, element.tag_name)` — the
same-tag descendants of the element's parent, in document order.  Branch
order as in the code: a truthy id attribute wins; else a truthy class
attribute contributes its first whitespace token (when the class is pure
whitespace, `split()[0]` raises IndexError, which the bare except turns into
the bare tag name); else the element is searched by identity in
`parentTagElems` and its 1-based position becomes the nth-child index; if the
search finds nothing, the bare tag name is returned. -/
def generate_selector (parentTagElems : List Element) (el : Element) : String :=
  if el.attrId ≠ "" then
    "#" ++ el.attrId
  else if el.attrClass ≠ "" then
    match pySplit el.attrClass with
    | [] => el.tagName
    | c :: _ => "." ++ c
  else
    match parentTagElems.findIdx? (fun s => s.ref = el.ref) with
    | some i => el.tagName ++ ":nth-child(" ++ toString (i + 1) ++ ")"
    | none => el.tagName

/-- One entry of the results list of find_elements_by_text (lines 188-195). -/
structure ElemEntry where
  index : Nat
  tag_name : String
  text : String
  selector : String
  visible : Bool
  enabled : Bool
deriving DecidableEq, Repr

/-- The record find_elements_by_text serializes with json.dumps. -/
structure FindByTextResult where
  count : Nat
  results : List ElemEntry
  message : String
deriving DecidableEq, Repr

/-- The `for i, element in enumerate(elements[:10])` loop (lines 186-197): an
element whose properties fault is skipped (`continue`) but still consumes its
enumeration index. -/
def buildEntries : Nat → List TextHit → List ElemEntry
  | _, [] => []
  | i, h :: hs =>
    match h.el.inspectFault with
    | some _ => buildEntries (i + 1) hs
    | none =>
      { index := i, tag_name := h.el.tagName, text := h.el.text.take 100,
        selector := generate_selector h.parentTagElems h.el,
        visible := h.el.displayed, enabled := h.el.enabled } :: buildEntries (i + 1) hs

/-- find_elements_by_text (lines 172-209): the XPath search yields the full
hit list; `count` is its total length, `results` holds detailed entries for
at most the first 10 hits; any exception from the search itself is caught by
the outer except and reported as a zero-count error record. -/
def find_elements_by_text (d : Driver) (text : String) (substrMatch : Bool) :
    FindByTextResult :=
  match driverFindByText d text substrMatch with
  | .error e =>
    { count := 0, results := [], message := searchErrMsg text e.str }
  | .ok hits =>
    { count := hits.length, results := buildEntries 0 (hits.take 10),
      message := foundCountMsg hits.length text }

/-- switch_tab (lines 119-127): an index outside [0, tab_count) raises
IndexError before any driver call (the active tab is untouched); a valid
index switches the driver to handles[index]. -/
def switch_tab (d : Driver) (index : Int) : Except DriverExc (Driver × String) :=
  if index < 0 ∨ (d.handles.length : Int) ≤ index then
    .error (.indexError (outOfRangeMsg index d.handles.length))
  else
    .ok ({ d with current := some (d.handles.getD index.toNat "") }, switchedMsg index)

/-- close_current_tab (lines 129-134): `driver.close()` closes the active
window (raising NoSuchWindowException when there is none); then, if any
handles remain, focus switches to the last one, else the session is left with
no active window. -/
def close_current_tab (d : Driver) : Except DriverExc (Driver × String) :=
  match d.current with
  | none => .error .noSuchWindow
  | some w =>
    let remaining := d.handles.erase w
    match remaining.getLast? with
    | some l => .ok ({ d with handles := remaining, current := some l }, "Closed current tab")
    | none => .ok ({ d with handles := remaining, current := none }, "Closed current tab")

/-- A DOM subtree: an element and its children, used to give the driver-side
semantics of the sibling search in _generate_selector. -/
inductive Dom where
  | node (el : Element) (children : List Dom)

def Dom.el : Dom → Element
  | .node e _ => e

def Dom.childNodes : Dom → List Dom
  | .node _ cs => cs

mutual

/-- All elements with the given tag in this subtree, root included, in
document order. -/
def subtreeWithTag (tag : String) : Dom → List Element
  | .node e cs => (if e.tagName = tag then [e] else []) ++ listSubtreesWithTag tag cs

def listSubtreesWithTag (tag : String) : List Dom → List Element
  | [] => []
  | c :: cs => subtreeWithTag tag c ++ listSubtreesWithTag tag cs

end

/-- The driver's answer to `parent.find_elements(By.TAG_NAME, tag)`: all
descendants of `parent` with that tag (self excluded), in document order —
this is what the W3C find-elements-from-element operation returns for a tag
name, and what _generate_selector actually iterates over. -/
def descendantsWithTag (tag : String) (parent : Dom) : List Element :=
  listSubtreesWithTag tag parent.childNodes

/-- Direct child elements of a DOM node. -/
def Dom.childElems (p : Dom) : List Element := p.childNodes.map Dom.el

/-- Modelled from the spec's words (for comparison with the code): the
position of the element among its same-tag SIBLINGS, i.e. among the parent's
direct children carrying the same tag, 0-based. -/
def specSiblingPos (parent : Dom) (el : Element) : Option Nat :=
  ((parent.childElems).filter (fun s => s.tagName = el.tagName)).findIdx?
    (fun s => s.ref = el.ref)

/-- Modelled from the spec's words: the positional selector the spec's
synthesis heuristic predicts, `tag:nth-child(k)` with k the 1-based position
among same-tag siblings. -/
def specNthChildSelector (parent : Dom) (el : Element) : Option String :=
  match specSiblingPos parent el with
  | some i => some (el.tagName ++ ":nth-child(" ++ toString (i + 1) ++ ")")
  | none => none

/-- Whether the selector resolves, at poll step t, to an element that is
present, visible and enabled (the spec's notion of interactable). -/
def interactableAt (d : Driver) (t : Nat) (sel : String) : Bool :=
  match driverFind d t sel with
  | .ok el => el.displayed && el.enabled
  | .error _ => false

/-- A fault-free element with the given identity, attributes and state. -/
def mkElem (r : Nat) (i c tag ty : String) (disp en : Bool) (tx : String) : Element :=
  { ref := r, attrId := i, attrClass := c, tagName := tag, attrType := ty,
    displayed := disp, enabled := en, text := tx,
    clickFault := none, sendKeysFault := none, inspectFault := none }

/-- A session with one tab whose page never contains any element. -/
def emptyDriver : Driver :=
  { handles := ["w0"], current := some "w0",
    pages := fun _ _ _ => .error .noSuchElement,
    textAt := fun _ _ _ => .ok [],
    navFault := fun _ => none }

/-- A session whose page always holds, for every selector, an input element
that is present and visible from poll step 0 but enabled only from step 1. -/
def lateEnabledDriver : Driver :=
  { handles := ["w0"], current := some "w0",
    pages := fun _ t _ => .ok (mkElem 1 "" "" "input" "text" true (decide (1 ≤ t)) ""),
    textAt := fun _ _ _ => .ok [],
    navFault := fun _ => none }

/-- One fault-free text-search hit on a div containing "hello". -/
def helloHit : TextHit :=
  { el := mkElem 1 "" "" "div" "" true true "hello", parentTagElems := [] }

/-- A session whose text search finds eleven elements containing "hello". -/
def manyHitsDriver : Driver :=
  { handles := ["w0"], current := some "w0",
    pages := fun _ _ _ => .error .noSuchElement,
    textAt := fun _ _ _ => .ok (List.replicate 11 helloHit),
    navFault := fun _ => none }

/-- A two-tab session (used to exercise tab switching). -/
def twoTabDriver : Driver :=
  { handles := ["w0", "w1"], current := some "w0",
    pages := fun _ _ _ => .error .noSuchElement,
    textAt := fun _ _ _ => .ok [],
    navFault := fun _ => none }

def spanA : Element := mkElem 1 "" "" "span" "" true true "A"
def spanC : Element := mkElem 2 "" "" "span" "" true true "C"
def spanD : Element := mkElem 3 "" "" "span" "" true true "D"
def divB : Element := mkElem 4 "" "" "div" "" true true ""
def divParent : Element := mkElem 5 "" "" "div" "" true true ""

/-- A parent div whose children are a span, a div wrapping a nested span, and
a final span: the final span is the 2nd same-tag SIBLING but the 3rd same-tag
descendant of the parent in document order. -/
def nestedParent : Dom :=
  .node divParent [.node spanA [], .node divB [.node spanC []], .node spanD []]

/-- An element carrying an id attribute. -/
def elFoo : Element := mkElem 9 "foo" "" "a" "" true true ""

/-- An element with no id and class "bar baz". -/
def elBar : Element := mkElem 10 "" "bar baz" "a" "" true true ""

/- Helper lemmas about the wait loop. -/

/-- When every check in the polling window pends (falsy condition or ignored
NoSuchElementException), the wait ends in TimeoutException. -/
lemma waitLoop_timeout (cond : Nat → Except DriverExc (Option Element)) :
    ∀ (fuel t : Nat), (∀ u, t ≤ u → u ≤ t + fuel → waitStep (cond u) = none) →
      waitLoop cond t fuel = .error .timeoutExc := by
  intro fuel
  induction fuel with
  | zero =>
    intro t h
    have h0 : waitStep (cond t) = none := h t le_rfl (Nat.le_add_right _ _)
    simp [waitLoop, h0]
  | succ f ih =>
    intro t h
    have h0 : waitStep (cond t) = none := h t le_rfl (by omega)
    have hrec := ih (t + 1) (fun u hu1 hu2 => h u (by omega) (by omega))
    simp [waitLoop, h0, hrec]

/-- When the very first check resolves, the wait returns that outcome at any
fuel. -/
lemma waitLoop_first (cond : Nat → Except DriverExc (Option Element))
    (fuel t : Nat) (r : Except DriverExc Element)
    (h : waitStep (cond t) = some r) : waitLoop cond t fuel = r := by
  cases fuel <;> simp [waitLoop, h]

/-- The safe click tool returns a result message for every driver behaviour:
the except-ladder ends in a catch-all handler. -/
lemma safe_click_element_isOk (d : Driver) (sel : String) (timeout : Nat) :
    (safe_click_element d sel timeout).isOk = true := by
  unfold safe_click_element
  cases h : waitLoop (clickableCond d sel) 0 timeout with
  | error e => simp [Except.isOk, Except.toBool]
  | ok el => cases hc : el.clickFault <;> simp [hc, Except.isOk, Except.toBool]

/-- The safe input tool returns a result message for every driver behaviour. -/
lemma safe_input_text_isOk (d : Driver) (sel text : String) (timeout : Nat) :
    (safe_input_text d sel text timeout).isOk = true := by
  unfold safe_input_text
  cases h : waitLoop (presenceCond d sel) 0 timeout with
  | error e => simp [Except.isOk, Except.toBool]
  | ok el =>
    by_cases he : el.enabled = false
    · simp [he, Except.isOk, Except.toBool]
    · cases hc : el.sendKeysFault <;> simp [he, hc, Except.isOk, Except.toBool]

/-- Each entry loop pass adds at most one entry. -/
lemma buildEntries_length_le : ∀ (l : List TextHit) (i : Nat),
    (buildEntries i l).length ≤ l.length := by
  intro l
  induction l with
  | nil => intro i; simp [buildEntries]
  | cons h hs ih =>
    intro i
    unfold buildEntries
    cases hf : h.el.inspectFault with
    | none => simpa using ih (i + 1)
    | some e =>
      have hrec := ih (i + 1)
      simp only [List.length_cons]
      omega

/-- C2, counterexample: wait_for_element on a page where the selector never
matches ends in a raised TimeoutException (an escaping exception, not a
returned failure result) — refuting "it never throws an exception when the
element is not yet present at timeout expiry". -/
theorem wait_for_element_throws_counterexample :
  wait_for_element emptyDriver "#x" 3 = .error .timeoutExc := rfl

/-- C2 as amended: wait_for_element blocks until presence or timeout; when
the element is present it returns the success message, and at timeout expiry
with the element still absent it raises TimeoutException to the caller
(rather than returning a failure result). -/
theorem wait_for_element_amended (d : Driver) (sel : String) (timeout : Nat) :
  (∀ el, driverFind d 0 sel = .ok el →
     wait_for_element d sel timeout = .ok (appearedMsg sel timeout)) ∧
  ((∀ t, t ≤ timeout → driverFind d t sel = .error .noSuchElement) →
     wait_for_element d sel timeout = .error .timeoutExc) := by
  constructor
  · intro el h
    have hw : waitLoop (presenceCond d sel) 0 timeout = .ok el :=
      waitLoop_first _ _ _ _ (by simp [presenceCond, h, waitStep])
    simp [wait_for_element, hw]
  · intro h
    have hw : waitLoop (presenceCond d sel) 0 timeout = .error .timeoutExc :=
      waitLoop_timeout _ timeout 0 (fun u hu1 hu2 => by
        simp [presenceCond, h u (by omega), waitStep])
    simp [wait_for_element, hw]

/-- Witness for the amended C2 theorem at a concrete input. -/
theorem wait_for_element_amended_witness :
  wait_for_element emptyDriver "#w" 1 = .error .timeoutExc :=
  (wait_for_element_amended emptyDriver "#w" 1).2 (fun _ _ => rfl)

/-- C3, counterexample: the element is present and visible from step 0 but
enabled only from step 1 of the 5-second polling window, so it becomes
interactable well within the timeout; yet safe_input_text answers the
"disabled" rejection immediately after the presence wait, without polling for
interactability as the claim states. -/
theorem safe_input_text_no_interactability_polling :
  interactableAt lateEnabledDriver 1 "#f" = true ∧
  safe_input_text lateEnabledDriver "#f" "hi" 5 = .ok (disabledMsg "#f") := by
  exact ⟨rfl, rfl⟩

/-- C3 as amended: safe_click_element polls up to the timeout for the element
to be clickable (present, visible and enabled) before clicking, and
safe_input_text polls only for presence and then checks enabled once,
rejecting a disabled element immediately; both always return exactly one
terminal result message (success, not-found/timeout, not-interactable,
disabled) without raising and without retrying beyond the polling window. -/
theorem safe_interaction_amended (d : Driver) (sel text : String) (timeout : Nat) :
  (safe_click_element d sel timeout).isOk = true ∧
  (safe_input_text d sel text timeout).isOk = true ∧
  ((∀ t, t ≤ timeout → waitStep (clickableCond d sel t) = none) →
     safe_click_element d sel timeout = .ok (notClickableMsg sel timeout)) ∧
  (∀ el, driverFind d 0 sel = .ok el → (el.displayed && el.enabled) = true →
     el.clickFault = none →
     safe_click_element d sel timeout = .ok (clickSuccessMsg sel)) ∧
  ((∀ t, t ≤ timeout → driverFind d t sel = .error .noSuchElement) →
     safe_input_text d sel text timeout = .ok (notFoundWithinMsg sel timeout)) ∧
  (∀ el, driverFind d 0 sel = .ok el → el.enabled = false →
     safe_input_text d sel text timeout = .ok (disabledMsg sel)) ∧
  (∀ el, driverFind d 0 sel = .ok el → el.enabled = true → el.sendKeysFault = none →
     safe_input_text d sel text timeout = .ok (inputSuccessMsg text sel)) := by
  refine ⟨safe_click_element_isOk d sel timeout,
    safe_input_text_isOk d sel text timeout, ?_, ?_, ?_, ?_, ?_⟩
  · intro h
    have hw : waitLoop (clickableCond d sel) 0 timeout = .error .timeoutExc :=
      waitLoop_timeout _ timeout 0 (fun u hu1 hu2 => h u (by omega))
    simp [safe_click_element, hw, clickExcMsg]
  · intro el h hde hcf
    have hw : waitLoop (clickableCond d sel) 0 timeout = .ok el :=
      waitLoop_first _ _ _ _ (by simp [clickableCond, h, hde, waitStep])
    simp [safe_click_element, hw, hcf]
  · intro h
    have hw : waitLoop (presenceCond d sel) 0 timeout = .error .timeoutExc :=
      waitLoop_timeout _ timeout 0 (fun u hu1 hu2 => by
        simp [presenceCond, h u (by omega), waitStep])
    simp [safe_input_text, hw, inputExcMsg]
  · intro el h he
    have hw : waitLoop (presenceCond d sel) 0 timeout = .ok el :=
      waitLoop_first _ _ _ _ (by simp [presenceCond, h, waitStep])
    simp [safe_input_text, hw, he]
  · intro el h he hsk
    have hw : waitLoop (presenceCond d sel) 0 timeout = .ok el :=
      waitLoop_first _ _ _ _ (by simp [presenceCond, h, waitStep])
    simp [safe_input_text, hw, he, hsk]

/-- Witness for the amended C3 theorem at concrete inputs. -/
theorem safe_interaction_amended_witness :
  safe_click_element emptyDriver "#b" 2 = .ok (notClickableMsg "#b" 2) ∧
  safe_input_text emptyDriver "#b" "x" 2 = .ok (notFoundWithinMsg "#b" 2) := by
  have h := safe_interaction_amended emptyDriver "#b" "x" 2
  exact ⟨h.2.2.1 (fun _ _ => rfl), h.2.2.2.2.1 (fun _ _ => rfl)⟩

/-- C9: with timeout zero and a selector that never matches, both safe tools
perform exactly one (failing) poll and return the Timeout/Not-found result
string; being total Lean functions over a fuel-bounded loop, they terminate
on every input, so they can never hang. -/
theorem safe_zero_timeout_terminates (d : Driver) (sel text : String)
    (h : ∀ t, driverFind d t sel = .error .noSuchElement) :
  safe_click_element d sel 0 = .ok (notClickableMsg sel 0) ∧
  safe_input_text d sel text 0 = .ok (notFoundWithinMsg sel 0) := by
  have hc : waitLoop (clickableCond d sel) 0 0 = .error .timeoutExc := by
    simp [waitLoop, clickableCond, h 0, waitStep]
  have hp : waitLoop (presenceCond d sel) 0 0 = .error .timeoutExc := by
    simp [waitLoop, presenceCond, h 0, waitStep]
  constructor
  · simp [safe_click_element, hc, clickExcMsg]
  · simp [safe_input_text, hp, inputExcMsg]

/-- Witness for the C9 theorem at a concrete input. -/
theorem safe_zero_timeout_terminates_witness :
  safe_click_element emptyDriver "#z" 0 = .ok (notClickableMsg "#z" 0) ∧
  safe_input_text emptyDriver "#z" "x" 0 = .ok (notFoundWithinMsg "#z" 0) :=
  safe_zero_timeout_terminates emptyDriver "#z" "x" (fun _ => rfl)

/-- C4: for a selector matching no element, check_element_exists returns the
structured record with exists=false (and does not raise); any fault other
than NoSuchElementException raised inside the try-block propagates to the
caller as a failure. -/
theorem check_element_exists_spec (d : Driver) (sel : String) :
  (driverFind d 0 sel = .error .noSuchElement →
     check_element_exists d sel =
       .ok { exists_ := false, visible := false, enabled := false,
             tagName? := none, type? := none, text? := none,
             message := notFoundMsg sel }) ∧
  (∀ e, e ≠ DriverExc.noSuchElement → checkBody d sel = .error e →
     check_element_exists d sel = .error e) := by
  constructor
  · intro h
    simp [check_element_exists, checkBody, h]
  · intro e he h
    cases e with
    | noSuchElement => exact absurd rfl he
    | timeoutExc => simp [check_element_exists, h]
    | elementNotInteractable => simp [check_element_exists, h]
    | noSuchWindow => simp [check_element_exists, h]
    | indexError m => simp [check_element_exists, h]
    | webDriverError m => simp [check_element_exists, h]

/-- Witness for the C4 theorem at a concrete input. -/
theorem check_element_exists_spec_witness :
  check_element_exists emptyDriver "#nope" =
    .ok { exists_ := false, visible := false, enabled := false,
          tagName? := none, type? := none, text? := none,
          message := notFoundMsg "#nope" } :=
  (check_element_exists_spec emptyDriver "#nope").1 rfl

/-- C5: press_key resolves the key name by upper-casing it against the fixed
vocabulary ENTER/TAB/ESC/ESCAPE/SPACE/BACKSPACE, so "enter" and "ENTER"
behave identically (as does any key whose upper-casing lies in the
vocabulary), and any key name outside the vocabulary yields the descriptive
"Unsupported key" result string instead of an exception. -/
theorem press_key_spec (d : Driver) (sel : String) :
  press_key d sel "enter" = press_key d sel "ENTER" ∧
  (∀ key, pyUpper key ∈ keyVocab → press_key d sel key = press_key d sel (pyUpper key)) ∧
  (∀ key, pyUpper key ∉ keyVocab → press_key d sel key = .ok (unsupportedKeyMsg key)) := by
  refine ⟨?_, ?_, ?_⟩
  · have h1 : pyUpper "enter" = "ENTER" := by decide
    have h2 : pyUpper "ENTER" = "ENTER" := by decide
    have hm : ("ENTER" : String) ∈ keyVocab := by decide
    simp [press_key, h1, h2, hm]
  · intro key hk
    have hup : pyUpper (pyUpper key) = pyUpper key := by
      simp only [keyVocab, List.mem_cons, List.not_mem_nil, or_false] at hk
      rcases hk with h | h | h | h | h | h <;> rw [h] <;> decide
    simp [press_key, hup, hk]
  · intro key hk
    simp [press_key, hk]

/-- Witness for the C5 theorem at concrete inputs. -/
theorem press_key_spec_witness :
  press_key emptyDriver "#i" "enter" = press_key emptyDriver "#i" "ENTER" ∧
  press_key emptyDriver "#i" "nonsense" = .ok (unsupportedKeyMsg "nonsense") :=
  ⟨(press_key_spec emptyDriver "#i").1,
   (press_key_spec emptyDriver "#i").2.2 "nonsense" (by decide)⟩

/-- C6, counterexample: the positional fallback of _generate_selector indexes
the element among the parent's same-tag DESCENDANTS in document order (that
is what `parent.find_elements(By.TAG_NAME, tag)` returns), not among its
same-tag siblings.  In `nestedParent` the final span is the 2nd same-tag
sibling — the spec's heuristic predicts "span:nth-child(2)" — but a span
nested inside an intervening div makes the code produce "span:nth-child(3)". -/
theorem generate_selector_descendant_counterexample :
  generate_selector (descendantsWithTag "span" nestedParent) spanD = "span:nth-child(3)" ∧
  specNthChildSelector nestedParent spanD = some "span:nth-child(2)" := by
  exact ⟨by decide, by decide⟩

/-- C6 as amended: selector synthesis prefers "#id" for a truthy id, else
"." plus the first whitespace-separated class token of a truthy class
attribute, else "tag:nth-child(k)" where k is the element's 1-based position,
in document order, among the DESCENDANTS of its parent carrying the same tag
(which coincides with the position among same-tag siblings only when no
same-tag element is nested deeper), else the bare tag name. -/
theorem generate_selector_amended (parent : Dom) (el : Element) :
  (el.attrId ≠ "" →
     generate_selector (descendantsWithTag el.tagName parent) el = "#" ++ el.attrId) ∧
  (∀ c cs, el.attrId = "" → pySplit el.attrClass = c :: cs →
     generate_selector (descendantsWithTag el.tagName parent) el = "." ++ c) ∧
  (∀ i, el.attrId = "" → el.attrClass = "" →
     (descendantsWithTag el.tagName parent).findIdx? (fun s => s.ref = el.ref) = some i →
     generate_selector (descendantsWithTag el.tagName parent) el =
       el.tagName ++ ":nth-child(" ++ toString (i + 1) ++ ")") ∧
  (el.attrId = "" → el.attrClass = "" →
     (descendantsWithTag el.tagName parent).findIdx? (fun s => s.ref = el.ref) = none →
     generate_selector (descendantsWithTag el.tagName parent) el = el.tagName) := by
  refine ⟨?_, ?_, ?_, ?_⟩
  · intro h
    simp [generate_selector, h]
  · intro c cs ha hc
    have hcc : el.attrClass ≠ "" := by
      intro hh
      have hempty : pySplit "" = [] := by decide
      rw [hh, hempty] at hc
      simp at hc
    simp [generate_selector, ha, hcc, hc]
  · intro i ha hb hidx
    simp [generate_selector, ha, hb, hidx]
  · intro ha hb hidx
    simp [generate_selector, ha, hb, hidx]

/-- Witness for the amended C6 theorem at concrete inputs: an id wins, and a
class "bar baz" yields ".bar". -/
theorem generate_selector_amended_witness :
  generate_selector (descendantsWithTag "a" (Dom.node divParent [])) elFoo = "#foo" ∧
  generate_selector (descendantsWithTag "a" (Dom.node divParent [])) elBar = ".bar" := by
  have h1 := generate_selector_amended (Dom.node divParent []) elFoo
  have h2 := generate_selector_amended (Dom.node divParent []) elBar
  exact ⟨h1.1 (by decide), h2.2.1 "bar" ["baz"] rfl (by decide)⟩

/-- C7: switch_tab raises IndexError for every index outside [0, tab_count)
— before any driver call, so the active tab is unchanged — and for a valid
index switches the driver's focus to handles[index], after which element
operations resolve in that tab's page. -/
theorem switch_tab_spec (d : Driver) (index : Int) :
  ((index < 0 ∨ (d.handles.length : Int) ≤ index) →
     switch_tab d index = .error (.indexError (outOfRangeMsg index d.handles.length))) ∧
  (0 ≤ index → index < (d.handles.length : Int) →
     switch_tab d index =
       .ok ({ d with current := some (d.handles.getD index.toNat "") }, switchedMsg index) ∧
     (∀ t s2, driverFind { d with current := some (d.handles.getD index.toNat "") } t s2 =
        d.pages (d.handles.getD index.toNat "") t s2)) := by
  constructor
  · intro h
    unfold switch_tab
    rw [if_pos h]
  · intro h1 h2
    have hcond : ¬(index < 0 ∨ (d.handles.length : Int) ≤ index) := by omega
    constructor
    · unfold switch_tab
      rw [if_neg hcond]
    · intro t s2
      rfl

/-- Witness for the C7 theorem on a two-tab session. -/
theorem switch_tab_spec_witness :
  switch_tab twoTabDriver 2 = .error (.indexError (outOfRangeMsg 2 2)) ∧
  switch_tab twoTabDriver 1 =
    .ok ({ twoTabDriver with current := some "w1" }, switchedMsg 1) := by
  have h := switch_tab_spec twoTabDriver 2
  have h2 := switch_tab_spec twoTabDriver 1
  exact ⟨h.1 (Or.inr (by decide)), (h2.2 (by decide) (by decide)).1⟩

/-- C8: close_current_tab closes the active tab and — uniformly — leaves the
focus on the last remaining handle when any remain (getLast? of the remaining
handles) and on no tab at all when none remain; in a session with no active
tab, every selector-based operation fails with the session-state
NoSuchWindowException (raised for the basic tools and wait, and propagated
uncaught by check_element_exists). -/
theorem close_current_tab_spec (d : Driver) (w : String) (h : d.current = some w) :
  close_current_tab d =
    .ok ({ d with handles := d.handles.erase w, current := (d.handles.erase w).getLast? },
         "Closed current tab") ∧
  (∀ dn : Driver, dn.current = none → ∀ sel text, ∀ timeout : Nat,
     click_element dn sel = .error .noSuchWindow ∧
     input_text dn sel text = .error .noSuchWindow ∧
     wait_for_element dn sel timeout = .error .noSuchWindow ∧
     check_element_exists dn sel = .error .noSuchWindow) := by
  constructor
  · unfold close_current_tab
    rw [h]
    cases hl : (d.handles.erase w).getLast? with
    | some l => simp [hl]
    | none => simp [hl]
  · intro dn hn sel text timeout
    have hf : ∀ t, driverFind dn t sel = .error .noSuchWindow := by
      intro t
      simp [driverFind, hn]
    refine ⟨?_, ?_, ?_, ?_⟩
    · simp [click_element, hf 0]
    · simp [input_text, hf 0]
    · have hw : waitLoop (presenceCond dn sel) 0 timeout = .error .noSuchWindow :=
        waitLoop_first _ _ _ _ (by simp [presenceCond, hf 0, waitStep])
      simp [wait_for_element, hw]
    · simp [check_element_exists, checkBody, hf 0]

/-- Witness for the C8 theorem: closing the only tab of a session leaves no
active tab, and a subsequent click fails with the session-state exception. -/
theorem close_current_tab_spec_witness :
  close_current_tab emptyDriver =
    .ok ({ emptyDriver with handles := [], current := none }, "Closed current tab") ∧
  click_element { emptyDriver with handles := [], current := none } "#s" =
    .error .noSuchWindow := by
  have h := close_current_tab_spec emptyDriver "w0" rfl
  exact ⟨h.1, (h.2 { emptyDriver with handles := [], current := none } rfl "#s" "t" 0).1⟩

/-- C10: whenever the text search itself succeeds, the count field of
find_elements_by_text equals the total number of matching elements, the
results list holds entries for at most the first 10 matches, and with more
than 10 matches the count strictly exceeds the length of the results list. -/
theorem find_elements_by_text_count_spec (d : Driver) (text : String) (pm : Bool)
    (hits : List TextHit) (h : driverFindByText d text pm = .ok hits) :
  (find_elements_by_text d text pm).count = hits.length ∧
  (find_elements_by_text d text pm).results.length ≤ 10 ∧
  (10 < hits.length →
     (find_elements_by_text d text pm).results.length <
       (find_elements_by_text d text pm).count) := by
  have hres : find_elements_by_text d text pm =
      { count := hits.length, results := buildEntries 0 (hits.take 10),
        message := foundCountMsg hits.length text } := by
    simp [find_elements_by_text, h]
  have hlen : (buildEntries 0 (hits.take 10)).length ≤ 10 := by
    have h1 := buildEntries_length_le (hits.take 10) 0
    have h2 : (hits.take 10).length ≤ 10 := by
      rw [List.length_take]
      omega
    omega
  refine ⟨by rw [hres], by rw [hres]; exact hlen, ?_⟩
  intro hgt
  rw [hres]
  show (buildEntries 0 (hits.take 10)).length < hits.length
  omega

/-- Witness for the C10 theorem: a search with eleven matches reports count
11 while listing at most ten entries. -/
theorem find_elements_by_text_count_witness :
  (find_elements_by_text manyHitsDriver "hello" true).count = 11 ∧
  (find_elements_by_text manyHitsDriver "hello" true).results.length <
    (find_elements_by_text manyHitsDriver "hello" true).count := by
  have h := find_elements_by_text_count_spec manyHitsDriver "hello" true
      (List.replicate 11 helloHit) rfl
  refine ⟨?_, h.2.2 (by simp)⟩
  rw [h.1]
  simp

end BrowserTools
